import Mathlib

/-!
# Kairos token route — shallow embedding

A verification development of `src/web/src/app/api/token/route.ts` (the
`GET` handler that provisions a LiveKit room and issues an access token).

The handler is embedded as a pure function of
* the environment (`Env`: the three `LIVEKIT_*` variables, each possibly unset),
* an oracle for the two external collaborators (`World`: the outcome of
  `RoomServiceClient.createRoom` and of `AccessToken.toJwt`),
* the request's query parameters (`ReqParams`: `room` and `username`,
  each possibly absent).

It returns the handler's outcome (a JSON response, or an exception escaping
the handler) together with the trace of external calls it attempted, in order.
-/

namespace Kairos

/-- A query parameter as returned by `request.nextUrl.searchParams.get`:
`null` when absent, otherwise the raw string. -/
structure ReqParams where
  room : Option String
  username : Option String
deriving DecidableEq, Repr

/-- The three process-environment values read by the handler
(`process.env.LIVEKIT_API_KEY` etc.), each `undefined` when unset. -/
structure Env where
  LIVEKIT_API_KEY : Option String
  LIVEKIT_API_SECRET : Option String
  LIVEKIT_URL : Option String
deriving DecidableEq, Repr

/-- JavaScript truthiness test for a `string | null | undefined` value, as
used by `!roomName`, `!apiKey`, …: falsy iff absent or the empty string. -/
def isFalsy : Option String → Bool
  | none => true
  | some s => s == ""

/-- JSON string escaping as performed by `JSON.stringify` on a string value:
`"` and `\` are escaped, control characters get their short escapes or a
`\u00XX` escape. -/
def jsonEscapeChar (c : Char) : String :=
  if c = '\"' then "\\\""
  else if c = '\\' then "\\\\"
  else if c = '\x08' then "\\b"
  else if c = '\x09' then "\\t"
  else if c = '\x0a' then "\\n"
  else if c = '\x0c' then "\\f"
  else if c = '\x0d' then "\\r"
  else if c.toNat < 32 then
    "\\u00" ++ String.singleton ("0123456789abcdef".toList.getD (c.toNat / 16) '0')
            ++ String.singleton ("0123456789abcdef".toList.getD (c.toNat % 16) '0')
  else String.singleton c

/-- `JSON.stringify` of a string value. -/
def jsonStringifyString (s : String) : String :=
  "\"" ++ String.join (s.toList.map jsonEscapeChar) ++ "\""

/-- `JSON.stringify` of a one-field object whose value is a string, the only
shape the route stringifies: `JSON.stringify(\x7b created_by: participantName \x7d)`. -/
def jsonStringifyObj1 (key value : String) : String :=
  "\x7b" ++ jsonStringifyString key ++ ":" ++ jsonStringifyString value ++ "\x7d"

/-- The options record passed to `roomService.createRoom`. -/
structure CreateRoomOpts where
  name : String
  emptyTimeout : Nat
  maxParticipants : Nat
  metadata : String
deriving DecidableEq, Repr

/-- The options record passed to the `AccessToken` constructor
(`identity`, `ttl`). -/
structure AccessTokenOpts where
  identity : String
  ttl : String
deriving DecidableEq, Repr

/-- The grant record passed to `at.addGrant`. -/
structure VideoGrant where
  roomJoin : Bool
  room : String
  canPublish : Bool
  canSubscribe : Bool
  canPublishData : Bool
  agent : Bool
deriving DecidableEq, Repr

/-- The full state of an `AccessToken` object at the moment `toJwt` is
called: constructor arguments plus the grants added (in order). -/
structure AccessTokenSpec where
  apiKey : String
  apiSecret : String
  opts : AccessTokenOpts
  grants : List VideoGrant
deriving DecidableEq, Repr

/-- Oracle for the two external collaborators. `createRoom` yields `ok` or
throws (`error` carries the thrown message); `toJwt` yields the signed
token string or throws. Both are functions of the arguments of the call,
fixed for the duration of one request. -/
structure World where
  createRoom : CreateRoomOpts → Except String Unit
  toJwt : AccessTokenSpec → Except String String

/-- One outbound call attempted by the handler. The room-service client
also offers room deletion and mutation endpoints; they get constructors
here so that their absence from every trace is expressible. -/
inductive ExtCall where
  | createRoomCall (opts : CreateRoomOpts)
  | deleteRoomCall (room : String)
  | updateRoomCall (room : String)
  | toJwtCall (spec : AccessTokenSpec)
deriving DecidableEq, Repr

/-- The body of a `NextResponse.json(...)` the route produces: either the
error object `\x7b error \x7d` or the success object `\x7b token, url \x7d`. -/
inductive Body where
  | errBody (error : String)
  | tokenUrl (token : String) (url : String)
deriving DecidableEq, Repr

/-- A JSON response with its HTTP status (`NextResponse.json` defaults to
status 200). -/
structure JsonResponse where
  status : Nat
  body : Body
deriving DecidableEq, Repr

/-- How one execution of the handler ends: a JSON response, or an
exception that escapes the handler (no surrounding catch). -/
inductive HandlerOutcome where
  | response (r : JsonResponse)
  | thrown (e : String)
deriving DecidableEq, Repr

/-- The `catch (error)` block of the handler: rebuilds the access token
from scratch and signs it; a throw inside this block escapes the handler.
`calls` is the trace accumulated before the catch was entered. -/
def GETcatch (apiKey apiSecret livekitUrl roomName participantName : String)
    (w : World) (calls : List ExtCall) : HandlerOutcome × List ExtCall :=
  let at2 : AccessTokenSpec :=
    { apiKey := apiKey
      apiSecret := apiSecret
      opts := { identity := participantName, ttl := "1h" }
      grants := [{ roomJoin := true, room := roomName, canPublish := true,
                   canSubscribe := true, canPublishData := true, agent := true }] }
  match w.toJwt at2 with
  | Except.ok token =>
      (HandlerOutcome.response ⟨200, Body.tokenUrl token livekitUrl⟩,
       calls ++ [ExtCall.toJwtCall at2])
  | Except.error e =>
      (HandlerOutcome.thrown e, calls ++ [ExtCall.toJwtCall at2])

/-- The `GET` handler of `src/web/src/app/api/token/route.ts`. -/
def GET (env : Env) (w : World) (req : ReqParams) : HandlerOutcome × List ExtCall :=
  let roomNameP := req.room
  let participantNameP := req.username
  if isFalsy roomNameP || isFalsy participantNameP then
    (HandlerOutcome.response ⟨400, Body.errBody "Missing room or username"⟩, [])
  else
  let roomName := roomNameP.getD ""
  let participantName := participantNameP.getD ""
  if isFalsy env.LIVEKIT_API_KEY || isFalsy env.LIVEKIT_API_SECRET
      || isFalsy env.LIVEKIT_URL then
    (HandlerOutcome.response ⟨500, Body.errBody "Server configuration error"⟩, [])
  else
  let apiKey := env.LIVEKIT_API_KEY.getD ""
  let apiSecret := env.LIVEKIT_API_SECRET.getD ""
  let livekitUrl := env.LIVEKIT_URL.getD ""
  let roomOpts : CreateRoomOpts :=
    { name := roomName
      emptyTimeout := 60 * 10
      maxParticipants := 2
      metadata := jsonStringifyObj1 "created_by" participantName }
  match w.createRoom roomOpts with
  | Except.error _ =>
      GETcatch apiKey apiSecret livekitUrl roomName participantName w
        [ExtCall.createRoomCall roomOpts]
  | Except.ok _ =>
      let at1 : AccessTokenSpec :=
        { apiKey := apiKey
          apiSecret := apiSecret
          opts := { identity := participantName, ttl := "1h" }
          grants := [{ roomJoin := true, room := roomName, canPublish := true,
                       canSubscribe := true, canPublishData := true, agent := true }] }
      match w.toJwt at1 with
      | Except.ok token =>
          (HandlerOutcome.response ⟨200, Body.tokenUrl token livekitUrl⟩,
           [ExtCall.createRoomCall roomOpts, ExtCall.toJwtCall at1])
      | Except.error _ =>
          GETcatch apiKey apiSecret livekitUrl roomName participantName w
            [ExtCall.createRoomCall roomOpts, ExtCall.toJwtCall at1]

/-- The `createRoom` options a request `(room, username)` produces,
named for use in theorem statements. -/
def requestedRoomOpts (roomName participantName : String) : CreateRoomOpts :=
  { name := roomName
    emptyTimeout := 60 * 10
    maxParticipants := 2
    metadata := jsonStringifyObj1 "created_by" participantName }

/-- The access-token state both branches of the handler build for a request
`(room, username)` under configuration `(apiKey, apiSecret)`, named for use
in theorem statements. -/
def issuedTokenSpec (apiKey apiSecret roomName participantName : String) :
    AccessTokenSpec :=
  { apiKey := apiKey
    apiSecret := apiSecret
    opts := { identity := participantName, ttl := "1h" }
    grants := [{ roomJoin := true, room := roomName, canPublish := true,
                 canSubscribe := true, canPublishData := true, agent := true }] }

/-- Modelled from the spec: the signing backend (the external
`livekit-server-sdk`, not part of this repository) interprets the
constructor option `ttl = "1h"` as 3600 seconds. -/
def ttlToSeconds (ttl : String) : Nat :=
  if ttl = "1h" then 3600 else 0

/-- Modelled from the spec: a signed token is expiry-bearing — a token
whose spec was signed at time `issuedAt` (seconds) is valid at time `t`
iff `t < issuedAt + ttl`. -/
def tokenValidAt (spec : AccessTokenSpec) (issuedAt t : Nat) : Bool :=
  t < issuedAt + ttlToSeconds spec.opts.ttl

/-- Tests whether an external call is a `createRoom` call. -/
def isCreateRoomCall : ExtCall → Bool
  | ExtCall.createRoomCall _ => true
  | _ => false

/-! ### Concrete environments and worlds used in witnesses -/

/-- A fully populated configuration. -/
def envAll : Env := ⟨some "key", some "secret", some "wss://lk.example"⟩

/-- A backend on which both room creation and signing succeed. -/
def worldOk : World :=
  ⟨fun _ => Except.ok (), fun _ => Except.ok "signed-token"⟩

/-- A backend on which room creation fails (room already exists) but
signing succeeds. -/
def worldRoomExists : World :=
  ⟨fun _ => Except.error "room already exists", fun _ => Except.ok "signed-token"⟩

/-- A backend on which room creation fails and signing also fails. -/
def worldSignFail : World :=
  ⟨fun _ => Except.error "room already exists", fun _ => Except.error "sign failure"⟩

/-! ### Helper lemmas -/

theorem isFalsy_some_of_ne {s : String} (h : s ≠ "") : isFalsy (some s) = false := by
  simp [isFalsy, h]

/-! ### Claims -/

/-- **C2 (counterexample)**: the handler does not trim whitespace: the
request `room = " "`, `username = "Alex"` passes validation (`" "` is a
truthy string), reaches provisioning and signing, and yields a 200 success
response — not the 400 "Missing room or username" response the claim
requires for a room that is empty after trimming. -/
theorem whitespace_room_passes_validation :
    (GET envAll worldOk ⟨some " ", some "Alex"⟩).1
      = HandlerOutcome.response ⟨200, Body.tokenUrl "signed-token" "wss://lk.example"⟩
    ∧ (GET envAll worldOk ⟨some " ", some "Alex"⟩).1
      ≠ HandlerOutcome.response ⟨400, Body.errBody "Missing room or username"⟩
    ∧ (GET envAll worldOk ⟨some " ", some "Alex"⟩).2 ≠ [] := by
  refine ⟨rfl, by decide, by decide⟩

/-- **C2 (amended)**: if `room` or `username` is absent or is exactly the
empty string (no trimming is performed), the handler returns status 400
with body `\x7b error: "Missing room or username" \x7d` and attempts no
external call. -/
theorem missing_params_rejected (env : Env) (w : World) (req : ReqParams)
    (h : isFalsy req.room = true ∨ isFalsy req.username = true) :
    GET env w req
      = (HandlerOutcome.response ⟨400, Body.errBody "Missing room or username"⟩, []) := by
  unfold GET
  rcases h with h | h <;> simp [h]

/-- Witness for `missing_params_rejected` at `room = ""`, `username = "Alex"`. -/
theorem missing_params_rejected_witness :
    (isFalsy (some "") = true ∨ isFalsy (some "Alex") = true)
    ∧ GET envAll worldOk ⟨some "", some "Alex"⟩
      = (HandlerOutcome.response ⟨400, Body.errBody "Missing room or username"⟩, []) :=
  ⟨Or.inl (by decide),
   missing_params_rejected envAll worldOk ⟨some "", some "Alex"⟩ (Or.inl (by decide))⟩

/-- **C1 (counterexample)**: with all three configuration values absent but
the `room` parameter also missing, the handler returns the 400 validation
error, not the 500 server-configuration error: parameter validation runs
before the configuration check, so the claim's "regardless of whether the
room and username parameters are valid" fails. -/
theorem missing_config_invalid_request_returns_400 :
    GET ⟨none, none, none⟩ worldOk ⟨none, some "Alex"⟩
      = (HandlerOutcome.response ⟨400, Body.errBody "Missing room or username"⟩, [])
    ∧ (GET ⟨none, none, none⟩ worldOk ⟨none, some "Alex"⟩).1
      ≠ HandlerOutcome.response ⟨500, Body.errBody "Server configuration error"⟩ := by
  refine ⟨rfl, by decide⟩

/-- **C1 (amended)**: for every request that passes parameter validation
(room and username both present and non-empty), if any one of the three
configuration values is absent (or empty), the handler returns status 500
with body `\x7b error: "Server configuration error" \x7d` and attempts neither
room creation nor signing (empty call trace). -/
theorem missing_config_valid_request_500 (env : Env) (w : World) (req : ReqParams)
    (hroom : isFalsy req.room = false) (huser : isFalsy req.username = false)
    (hcfg : isFalsy env.LIVEKIT_API_KEY = true ∨ isFalsy env.LIVEKIT_API_SECRET = true
            ∨ isFalsy env.LIVEKIT_URL = true) :
    GET env w req
      = (HandlerOutcome.response ⟨500, Body.errBody "Server configuration error"⟩, []) := by
  unfold GET
  rcases hcfg with h | h | h <;> simp [hroom, huser, h]

/-- Witness for `missing_config_valid_request_500`: valid parameters, unset
API key. -/
theorem missing_config_valid_request_500_witness :
    (isFalsy (some "kairos-1") = false ∧ isFalsy (some "Alex") = false
     ∧ isFalsy (none : Option String) = true)
    ∧ GET ⟨none, some "secret", some "wss://lk.example"⟩ worldOk
        ⟨some "kairos-1", some "Alex"⟩
      = (HandlerOutcome.response ⟨500, Body.errBody "Server configuration error"⟩, []) :=
  ⟨⟨by decide, by decide, by decide⟩,
   missing_config_valid_request_500 ⟨none, some "secret", some "wss://lk.example"⟩
     worldOk ⟨some "kairos-1", some "Alex"⟩ (by decide) (by decide) (Or.inl (by decide))⟩

/-- Shared helper: on a valid request with full configuration, whenever the
signing oracle succeeds on the built token spec, the handler returns the
200 success response and its trace is exactly one `createRoom` attempt
followed by one `toJwt` call — whatever the outcome of `createRoom`. -/
theorem GET_ok_of_toJwt_ok (ak sec url room u tok : String) (w : World)
    (hroom : room ≠ "") (hu : u ≠ "") (hak : ak ≠ "") (hsec : sec ≠ "")
    (hurl : url ≠ "")
    (hjwt : w.toJwt (issuedTokenSpec ak sec room u) = Except.ok tok) :
    GET ⟨some ak, some sec, some url⟩ w ⟨some room, some u⟩
      = (HandlerOutcome.response ⟨200, Body.tokenUrl tok url⟩,
         [ExtCall.createRoomCall (requestedRoomOpts room u),
          ExtCall.toJwtCall (issuedTokenSpec ak sec room u)]) := by
  have hj := hjwt
  simp only [issuedTokenSpec] at hj
  unfold GET
  simp only [isFalsy_some_of_ne hroom, isFalsy_some_of_ne hu,
    isFalsy_some_of_ne hak, isFalsy_some_of_ne hsec, isFalsy_some_of_ne hurl,
    Bool.or_self, Bool.false_or, Bool.or_false, if_neg, Bool.false_eq_true,
    not_false_eq_true, Option.getD_some]
  cases hcr : w.createRoom
      { name := room, emptyTimeout := 60 * 10, maxParticipants := 2,
        metadata := jsonStringifyObj1 "created_by" u } with
  | ok _ =>
      simp [hcr, hj, requestedRoomOpts, issuedTokenSpec]
  | error e =>
      simp [hcr, hj, GETcatch, requestedRoomOpts, issuedTokenSpec]

/-- **C3**: with full configuration and a working signer, a `createRoom`
failure is recovered locally: the handler still returns the 200 success
response carrying the token and the endpoint; and issuing twice for the
same room with different usernames (second attempt failing room creation,
e.g. "already exists") succeeds both times. -/
theorem createRoom_failure_recovered (ak sec url room u1 u2 tok1 tok2 e : String)
    (w1 w2 : World)
    (hroom : room ≠ "") (hu1 : u1 ≠ "") (hu2 : u2 ≠ "")
    (hak : ak ≠ "") (hsec : sec ≠ "") (hurl : url ≠ "")
    (hjwt1 : w1.toJwt (issuedTokenSpec ak sec room u1) = Except.ok tok1)
    (hcr2 : w2.createRoom (requestedRoomOpts room u2) = Except.error e)
    (hjwt2 : w2.toJwt (issuedTokenSpec ak sec room u2) = Except.ok tok2) :
    (GET ⟨some ak, some sec, some url⟩ w2 ⟨some room, some u2⟩).1
      = HandlerOutcome.response ⟨200, Body.tokenUrl tok2 url⟩
    ∧ (GET ⟨some ak, some sec, some url⟩ w1 ⟨some room, some u1⟩).1
      = HandlerOutcome.response ⟨200, Body.tokenUrl tok1 url⟩ := by
  constructor
  · rw [GET_ok_of_toJwt_ok ak sec url room u2 tok2 w2 hroom hu2 hak hsec hurl hjwt2]
  · rw [GET_ok_of_toJwt_ok ak sec url room u1 tok1 w1 hroom hu1 hak hsec hurl hjwt1]

/-- Witness for `createRoom_failure_recovered`: usernames "Alex" then
"Blair" on the same room, second `createRoom` failing with "room already
exists". -/
theorem createRoom_failure_recovered_witness :
    (worldOk.toJwt (issuedTokenSpec "key" "secret" "kairos-1" "Alex")
       = Except.ok "signed-token"
     ∧ worldRoomExists.createRoom (requestedRoomOpts "kairos-1" "Blair")
       = Except.error "room already exists"
     ∧ worldRoomExists.toJwt (issuedTokenSpec "key" "secret" "kairos-1" "Blair")
       = Except.ok "signed-token")
    ∧ (GET ⟨some "key", some "secret", some "wss://lk.example"⟩ worldRoomExists
         ⟨some "kairos-1", some "Blair"⟩).1
      = HandlerOutcome.response ⟨200, Body.tokenUrl "signed-token" "wss://lk.example"⟩
    ∧ (GET ⟨some "key", some "secret", some "wss://lk.example"⟩ worldOk
         ⟨some "kairos-1", some "Alex"⟩).1
      = HandlerOutcome.response ⟨200, Body.tokenUrl "signed-token" "wss://lk.example"⟩ :=
  ⟨⟨rfl, rfl, rfl⟩,
   createRoom_failure_recovered "key" "secret" "wss://lk.example" "kairos-1"
     "Alex" "Blair" "signed-token" "signed-token" "room already exists"
     worldOk worldRoomExists (by decide) (by decide) (by decide) (by decide)
     (by decide) (by decide) rfl rfl rfl⟩

/-- **C8**: for every valid request with complete configuration, when the
signer succeeds the response is the 200 success object with exactly the
fields `token` (the signed string) and `url` equal to the configured
`LIVEKIT_URL` — in the provisioning-success and provisioning-failure
branches alike (the statement holds for every `createRoom` outcome). -/
theorem success_response_token_and_url (ak sec url room u tok : String) (w : World)
    (hroom : room ≠ "") (hu : u ≠ "") (hak : ak ≠ "") (hsec : sec ≠ "")
    (hurl : url ≠ "")
    (hjwt : w.toJwt (issuedTokenSpec ak sec room u) = Except.ok tok) :
    (GET ⟨some ak, some sec, some url⟩ w ⟨some room, some u⟩).1
      = HandlerOutcome.response ⟨200, Body.tokenUrl tok url⟩ := by
  rw [GET_ok_of_toJwt_ok ak sec url room u tok w hroom hu hak hsec hurl hjwt]

/-- Witness for `success_response_token_and_url` on a concrete request. -/
theorem success_response_token_and_url_witness :
    worldOk.toJwt (issuedTokenSpec "key" "secret" "kairos-1700000000-ab12cd" "Alex")
      = Except.ok "signed-token"
    ∧ (GET ⟨some "key", some "secret", some "wss://lk.example"⟩ worldOk
         ⟨some "kairos-1700000000-ab12cd", some "Alex"⟩).1
      = HandlerOutcome.response ⟨200, Body.tokenUrl "signed-token" "wss://lk.example"⟩ :=
  ⟨rfl,
   success_response_token_and_url "key" "secret" "wss://lk.example"
     "kairos-1700000000-ab12cd" "Alex" "signed-token" worldOk (by decide)
     (by decide) (by decide) (by decide) (by decide) rfl⟩

/-- Shared helper: a non-falsy optional string is `some` of a non-empty
string. -/
theorem of_isFalsy_false {o : Option String} (h : isFalsy o = false) :
    ∃ s, o = some s ∧ s ≠ "" := by
  cases o with
  | none => simp [isFalsy] at h
  | some s =>
      refine ⟨s, rfl, ?_⟩
      simpa [isFalsy] using h

/-- Shared helper: on a valid request with full configuration, when the
signing oracle fails on the built token spec, the exception escapes the
handler (the catch block re-signs the same spec, which fails again, and
there is no surrounding catch). -/
theorem GET_thrown_of_toJwt_error (ak sec url room u e : String) (w : World)
    (hroom : room ≠ "") (hu : u ≠ "") (hak : ak ≠ "") (hsec : sec ≠ "")
    (hurl : url ≠ "")
    (hjwt : w.toJwt (issuedTokenSpec ak sec room u) = Except.error e) :
    (GET ⟨some ak, some sec, some url⟩ w ⟨some room, some u⟩).1
      = HandlerOutcome.thrown e := by
  have hj := hjwt
  simp only [issuedTokenSpec] at hj
  unfold GET
  simp only [isFalsy_some_of_ne hroom, isFalsy_some_of_ne hu,
    isFalsy_some_of_ne hak, isFalsy_some_of_ne hsec, isFalsy_some_of_ne hurl,
    Bool.or_self, Bool.false_or, Bool.or_false, Bool.false_eq_true,
    not_false_eq_true, Option.getD_some]
  cases hcr : w.createRoom
      { name := room, emptyTimeout := 60 * 10, maxParticipants := 2,
        metadata := jsonStringifyObj1 "created_by" u } with
  | ok _ => simp [hcr, hj, GETcatch]
  | error e2 => simp [hcr, hj, GETcatch]

/-- Shared helper: every token spec the handler hands to `toJwt` is the
canonical spec of the request — built from the configured key and secret,
the requested room and the requesting username. -/
theorem toJwt_spec_canonical (env : Env) (w : World) (req : ReqParams)
    (spec : AccessTokenSpec)
    (hmem : ExtCall.toJwtCall spec ∈ (GET env w req).2) :
    spec = issuedTokenSpec (env.LIVEKIT_API_KEY.getD "")
      (env.LIVEKIT_API_SECRET.getD "") (req.room.getD "") (req.username.getD "") := by
  by_cases h1 : (isFalsy req.room || isFalsy req.username) = true
  · simp [GET, h1] at hmem
  · have h1' : (isFalsy req.room || isFalsy req.username) = false := by
      simpa using h1
    by_cases h2 : (isFalsy env.LIVEKIT_API_KEY || isFalsy env.LIVEKIT_API_SECRET
        || isFalsy env.LIVEKIT_URL) = true
    · simp [GET, h1', h2] at hmem
    · have h2' : (isFalsy env.LIVEKIT_API_KEY || isFalsy env.LIVEKIT_API_SECRET
          || isFalsy env.LIVEKIT_URL) = false := by
        simpa using h2
      simp only [GET, GETcatch, h1', h2', Bool.false_eq_true, if_false] at hmem
      simp only [issuedTokenSpec]
      split at hmem <;> split at hmem <;> simp_all

/-- **C4**: any 200 success response for a valid, fully configured request
carries the token obtained by signing the canonical spec: identity equal to
the requested username, and a grant set of exactly room-join restricted to
the requested room, publish, subscribe, data-publish and agent dispatch all
true — the same five capabilities for every request. -/
theorem token_identity_and_grants (ak sec url room u tok tu : String) (w : World)
    (hroom : room ≠ "") (hu : u ≠ "") (hak : ak ≠ "") (hsec : sec ≠ "")
    (hurl : url ≠ "")
    (hresp : (GET ⟨some ak, some sec, some url⟩ w ⟨some room, some u⟩).1
      = HandlerOutcome.response ⟨200, Body.tokenUrl tok tu⟩) :
    w.toJwt (issuedTokenSpec ak sec room u) = Except.ok tok
    ∧ (issuedTokenSpec ak sec room u).opts.identity = u
    ∧ (issuedTokenSpec ak sec room u).grants
      = [{ roomJoin := true, room := room, canPublish := true,
           canSubscribe := true, canPublishData := true, agent := true }] := by
  refine ⟨?_, rfl, rfl⟩
  cases hjw : w.toJwt (issuedTokenSpec ak sec room u) with
  | ok t =>
      rw [GET_ok_of_toJwt_ok ak sec url room u t w hroom hu hak hsec hurl hjw]
        at hresp
      simp only [HandlerOutcome.response.injEq, JsonResponse.mk.injEq,
        Body.tokenUrl.injEq, true_and] at hresp
      rw [hresp.1]
  | error e =>
      rw [GET_thrown_of_toJwt_error ak sec url room u e w hroom hu hak hsec hurl
        hjw] at hresp
      simp at hresp

/-- Witness for `token_identity_and_grants` on a concrete successful run. -/
theorem token_identity_and_grants_witness :
    worldOk.toJwt (issuedTokenSpec "key" "secret" "kairos-1" "Alex")
      = Except.ok "signed-token"
    ∧ (issuedTokenSpec "key" "secret" "kairos-1" "Alex").opts.identity = "Alex"
    ∧ (issuedTokenSpec "key" "secret" "kairos-1" "Alex").grants
      = [{ roomJoin := true, room := "kairos-1", canPublish := true,
           canSubscribe := true, canPublishData := true, agent := true }] :=
  token_identity_and_grants "key" "secret" "wss://lk.example" "kairos-1" "Alex"
    "signed-token" "wss://lk.example" worldOk (by decide) (by decide) (by decide)
    (by decide) (by decide) (by decide)

/-- **C5 (counterexample)**: with full configuration and valid parameters,
when room creation fails and signing fails as well, the second `toJwt`
call sits inside the catch block with no surrounding handler, so the
exception escapes: the outcome is neither a `\x7b token, url \x7d` nor a
`\x7b error \x7d` JSON response but an unhandled exception. -/
theorem sign_failure_throws_unhandled :
    (GET envAll worldSignFail ⟨some "kairos-1", some "Alex"⟩).1
      = HandlerOutcome.thrown "sign failure" := rfl

/-- **C5 (amended)**: every execution ends either in a structured JSON
response — whose body, by construction, is one of the two shapes
`\x7b error \x7d` or `\x7b token, url \x7d` — or in an exception escaping the
handler, and the latter only when the signing oracle failed on some token
spec. -/
theorem handler_outcome_classified (env : Env) (w : World) (req : ReqParams) :
    (∃ s m, (GET env w req).1 = HandlerOutcome.response ⟨s, Body.errBody m⟩)
    ∨ (∃ t u2, (GET env w req).1
        = HandlerOutcome.response ⟨200, Body.tokenUrl t u2⟩)
    ∨ (∃ e spec, (GET env w req).1 = HandlerOutcome.thrown e
        ∧ w.toJwt spec = Except.error e) := by
  obtain ⟨rm, un⟩ := req
  obtain ⟨k, s, uu⟩ := env
  by_cases h1 : (isFalsy rm || isFalsy un) = true
  · exact Or.inl ⟨400, "Missing room or username", by simp [GET, h1]⟩
  · have h1' : (isFalsy rm || isFalsy un) = false := by simpa using h1
    obtain ⟨hrf, huf⟩ := Bool.or_eq_false_iff.mp h1'
    obtain ⟨room, hre, hrne⟩ := of_isFalsy_false hrf
    obtain ⟨u, hue, hune⟩ := of_isFalsy_false huf
    subst hre; subst hue
    by_cases h2 : (isFalsy k || isFalsy s || isFalsy uu) = true
    · exact Or.inl ⟨500, "Server configuration error", by simp [GET, h1', h2]⟩
    · have h2' : (isFalsy k || isFalsy s || isFalsy uu) = false := by simpa using h2
      have h3 := Bool.or_eq_false_iff.mp h2'
      have h4 := Bool.or_eq_false_iff.mp h3.1
      obtain ⟨ak, hke, hkne⟩ := of_isFalsy_false h4.1
      obtain ⟨sec, hse, hsne⟩ := of_isFalsy_false h4.2
      obtain ⟨url, huue, huune⟩ := of_isFalsy_false h3.2
      subst hke; subst hse; subst huue
      cases hjw : w.toJwt (issuedTokenSpec ak sec room u) with
      | ok t =>
          refine Or.inr (Or.inl ⟨t, url, ?_⟩)
          rw [GET_ok_of_toJwt_ok ak sec url room u t w hrne hune hkne hsne huune
            hjw]
      | error e =>
          exact Or.inr (Or.inr ⟨e, issuedTokenSpec ak sec room u,
            GET_thrown_of_toJwt_error ak sec url room u e w hrne hune hkne hsne
              huune hjw, hjw⟩)

/-- **C6**: every token spec the handler signs has `ttl = "1h"` — fixed,
not per-request — and under the spec's expiry semantics a token issued at
time `T` is valid at `T + 59` minutes and expired at `T + 61` minutes. -/
theorem token_ttl_fixed_one_hour (env : Env) (w : World) (req : ReqParams)
    (spec : AccessTokenSpec)
    (hmem : ExtCall.toJwtCall spec ∈ (GET env w req).2) :
    spec.opts.ttl = "1h"
    ∧ ∀ T : Nat, tokenValidAt spec T (T + 59 * 60) = true
        ∧ tokenValidAt spec T (T + 61 * 60) = false := by
  have h := toJwt_spec_canonical env w req spec hmem
  constructor
  · rw [h]; rfl
  · intro T
    constructor
    · rw [h]
      simp [tokenValidAt, ttlToSeconds, issuedTokenSpec]
    · rw [h]
      simp [tokenValidAt, ttlToSeconds, issuedTokenSpec]

/-- Witness for `token_ttl_fixed_one_hour` on a concrete run and a concrete
issuance time. -/
theorem token_ttl_fixed_one_hour_witness :
    (issuedTokenSpec "key" "secret" "kairos-1" "Alex").opts.ttl = "1h"
    ∧ tokenValidAt (issuedTokenSpec "key" "secret" "kairos-1" "Alex")
        1700000000 (1700000000 + 59 * 60) = true
    ∧ tokenValidAt (issuedTokenSpec "key" "secret" "kairos-1" "Alex")
        1700000000 (1700000000 + 61 * 60) = false :=
  ⟨(token_ttl_fixed_one_hour envAll worldOk ⟨some "kairos-1", some "Alex"⟩
      (issuedTokenSpec "key" "secret" "kairos-1" "Alex") (by decide)).1,
   ((token_ttl_fixed_one_hour envAll worldOk ⟨some "kairos-1", some "Alex"⟩
      (issuedTokenSpec "key" "secret" "kairos-1" "Alex") (by decide)).2
        1700000000).1,
   ((token_ttl_fixed_one_hour envAll worldOk ⟨some "kairos-1", some "Alex"⟩
      (issuedTokenSpec "key" "secret" "kairos-1" "Alex") (by decide)).2
        1700000000).2⟩

/-- **C7**: on a valid, fully configured request the first external call
is the room creation, with name equal to the requested room, a participant
capacity of exactly 2, an empty-room timeout of exactly 600 seconds, and
metadata that stringifies `\x7b created_by: username \x7d`. -/
theorem createRoom_call_policy (ak sec url room u : String) (w : World)
    (hroom : room ≠ "") (hu : u ≠ "") (hak : ak ≠ "") (hsec : sec ≠ "")
    (hurl : url ≠ "") :
    (GET ⟨some ak, some sec, some url⟩ w ⟨some room, some u⟩).2.head?
      = some (ExtCall.createRoomCall
          { name := room, emptyTimeout := 600, maxParticipants := 2,
            metadata := jsonStringifyObj1 "created_by" u }) := by
  unfold GET GETcatch
  simp only [isFalsy_some_of_ne hroom, isFalsy_some_of_ne hu,
    isFalsy_some_of_ne hak, isFalsy_some_of_ne hsec, isFalsy_some_of_ne hurl,
    Bool.or_self, Bool.false_or, Bool.or_false, Bool.false_eq_true, if_false,
    Option.getD_some]
  split <;> (try split) <;> (try split) <;> rfl

/-- Witness for `createRoom_call_policy` on a concrete request. -/
theorem createRoom_call_policy_witness :
    (GET ⟨some "key", some "secret", some "wss://lk.example"⟩ worldOk
       ⟨some "kairos-1", some "Alex"⟩).2.head?
      = some (ExtCall.createRoomCall
          { name := "kairos-1", emptyTimeout := 600, maxParticipants := 2,
            metadata := jsonStringifyObj1 "created_by" "Alex" }) :=
  createRoom_call_policy "key" "secret" "wss://lk.example" "kairos-1" "Alex"
    worldOk (by decide) (by decide) (by decide) (by decide) (by decide)

/-- **C9**: every execution attempts at most one `createRoom` call —
exactly one when the request is valid and fully configured — and never
attempts a room deletion or mutation. -/
theorem at_most_one_createRoom_never_mutates (env : Env) (w : World)
    (req : ReqParams) :
    ((GET env w req).2.countP (fun c => isCreateRoomCall c) ≤ 1)
    ∧ (∀ c ∈ (GET env w req).2,
        (∀ r, c ≠ ExtCall.deleteRoomCall r) ∧ (∀ r, c ≠ ExtCall.updateRoomCall r))
    ∧ (isFalsy req.room = false → isFalsy req.username = false →
       isFalsy env.LIVEKIT_API_KEY = false → isFalsy env.LIVEKIT_API_SECRET = false →
       isFalsy env.LIVEKIT_URL = false →
       (GET env w req).2.countP (fun c => isCreateRoomCall c) = 1) := by
  obtain ⟨rm, un⟩ := req
  obtain ⟨k, s, uu⟩ := env
  by_cases h1 : (isFalsy rm || isFalsy un) = true
  · refine ⟨by simp [GET, h1], by simp [GET, h1], ?_⟩
    intro hrf hunf _ _ _
    rw [hrf, hunf] at h1
    simp at h1
  · have h1' : (isFalsy rm || isFalsy un) = false := by simpa using h1
    by_cases h2 : (isFalsy k || isFalsy s || isFalsy uu) = true
    · refine ⟨by simp [GET, h1', h2], by simp [GET, h1', h2], ?_⟩
      intro _ _ hkf hsf huuf
      rw [hkf, hsf, huuf] at h2
      simp at h2
    · have h2' : (isFalsy k || isFalsy s || isFalsy uu) = false := by simpa using h2
      refine ⟨?_, ?_, fun _ _ _ _ _ => ?_⟩ <;>
      · simp only [GET, GETcatch, h1', h2', Bool.false_eq_true, if_false]
        split <;> (try split) <;> (try split) <;>
          simp [List.countP_cons, List.countP_nil, isCreateRoomCall]

/-- Witness for `at_most_one_createRoom_never_mutates`: exactly one
`createRoom` on a concrete valid run. -/
theorem at_most_one_createRoom_never_mutates_witness :
    (GET envAll worldOk ⟨some "kairos-1", some "Alex"⟩).2.countP
      (fun c => isCreateRoomCall c) = 1 :=
  (at_most_one_createRoom_never_mutates envAll worldOk
      ⟨some "kairos-1", some "Alex"⟩).2.2
    (by decide) (by decide) (by decide) (by decide) (by decide)

/-- **C10**: the provisioning-failure branch builds its token by the same
procedure as the success branch: with the same signing oracle, the
handler's outcome is identical whatever the `createRoom` outcomes, and
every token spec signed during the run is the one canonical spec of the
request. A caller cannot tell from the credential whether provisioning
succeeded. -/
theorem branches_issue_identical_tokens (ak sec url room u : String)
    (w1 w2 : World)
    (hroom : room ≠ "") (hu : u ≠ "") (hak : ak ≠ "") (hsec : sec ≠ "")
    (hurl : url ≠ "")
    (hjwt : w1.toJwt = w2.toJwt) :
    (GET ⟨some ak, some sec, some url⟩ w1 ⟨some room, some u⟩).1
      = (GET ⟨some ak, some sec, some url⟩ w2 ⟨some room, some u⟩).1
    ∧ ∀ spec,
        ExtCall.toJwtCall spec
            ∈ (GET ⟨some ak, some sec, some url⟩ w1 ⟨some room, some u⟩).2 →
        spec = issuedTokenSpec ak sec room u := by
  constructor
  · cases hjw : w1.toJwt (issuedTokenSpec ak sec room u) with
    | ok t =>
        rw [GET_ok_of_toJwt_ok ak sec url room u t w1 hroom hu hak hsec hurl hjw,
          GET_ok_of_toJwt_ok ak sec url room u t w2 hroom hu hak hsec hurl
            (hjwt ▸ hjw)]
    | error e =>
        rw [GET_thrown_of_toJwt_error ak sec url room u e w1 hroom hu hak hsec
            hurl hjw,
          GET_thrown_of_toJwt_error ak sec url room u e w2 hroom hu hak hsec
            hurl (hjwt ▸ hjw)]
  · intro spec hmem
    exact toJwt_spec_canonical ⟨some ak, some sec, some url⟩ w1
      ⟨some room, some u⟩ spec hmem

/-- Witness for `branches_issue_identical_tokens`: same signer, one world
where `createRoom` succeeds and one where it fails. -/
theorem branches_issue_identical_tokens_witness :
    worldOk.toJwt = worldRoomExists.toJwt
    ∧ (GET envAll worldOk ⟨some "kairos-1", some "Alex"⟩).1
      = (GET envAll worldRoomExists ⟨some "kairos-1", some "Alex"⟩).1 :=
  ⟨rfl,
   (branches_issue_identical_tokens "key" "secret" "wss://lk.example" "kairos-1"
      "Alex" worldOk worldRoomExists (by decide) (by decide) (by decide)
      (by decide) (by decide) rfl).1⟩

end Kairos
